import Mathlib

/-!
Verification of the screening-and-valuation engine of `src/main.py`
(multi-ddm-japan): a shallow embedding of the valuation model
(`analyze_stock`, `get_value`, `format_result`) and the scheduler write
step of `main`, with theorems settling the frozen behavioural claims.

Modelling conventions:
* Python floats are modelled as exact rationals.  Prices flow through the
  bulk-download path `price_cache[t] = float(price)` unfiltered, so price
  values are modelled with a NaN-aware type `JNum`; the other numeric
  inputs (statement line items after the `pd.isna` filter in `get_value`,
  `info` fields, the scraped payout ratio) are modelled as plain rationals.
* The irrational cube root in the CAGR computation is modelled with exact
  real arithmetic (`Real.rpow`); every branch condition of the program is
  decidable rational/string arithmetic, so concrete runs still evaluate.
* `round(x, n)` is modelled as exact round-half-to-even on rationals.
-/

namespace MultiDDM

/-- A Python float that may be NaN (used for prices, which reach the engine
unfiltered from the bulk download path in `main`). -/
inductive JNum where
  | nan : JNum
  | val (q : ℚ) : JNum
deriving DecidableEq

/-- Python truthiness of a float: `bool(float("nan")) = True`, `bool(0.0) = False`. -/
def JNum.truthy : JNum → Bool
  | .nan => true
  | .val q => q != 0

/-- Python truthiness of an optional float (`None` is falsy). -/
def optTruthy : Option JNum → Bool
  | none => false
  | some x => x.truthy

/-- Python `a or b` on optional floats: `a` if truthy, else `b`. -/
def pyOr (a b : Option JNum) : Option JNum :=
  if optTruthy a then a else b

/-- Multiplication of a possibly-NaN float by a rational (NaN propagates). -/
def JNum.mulQ : JNum → ℚ → JNum
  | .nan, _ => .nan
  | .val p, q => .val (p * q)

/-- Round half to even, as Python's `round` does on exact values. -/
def roundHE {α : Type} [LinearOrderedField α] [FloorRing α] (x : α) : ℤ :=
  let f := Int.floor x
  if x - f < 1/2 then f
  else if 1/2 < x - f then f + 1
  else if 2 ∣ f then f else f + 1

/-- Python `round(x, n)` (exact model): round `x` to `n` decimal places. -/
def pyRound {α : Type} [LinearOrderedField α] [FloorRing α] (x : α) (n : ℕ) : α :=
  (roundHE (x * 10 ^ n) : α) / 10 ^ n

/-- `round(x, 0)` on a possibly-NaN float: `round(nan)` stays NaN. -/
def JNum.round0 : JNum → JNum
  | .nan => .nan
  | .val q => .val (pyRound q 0)

/-- A pandas DataFrame as used by `get_value`: a row index, ordered date
columns (most recent first), and a total cell table (missing cells are NaN,
as `.loc` would yield). -/
structure Frame where
  index : List String
  cols : List String
  data : String → String → JNum

/-- `df.empty`: true if either axis is empty. -/
def Frame.isEmpty (df : Frame) : Bool :=
  df.index.isEmpty || df.cols.isEmpty

/-- The key loop of `get_value`: first key that is in the index with a
non-NaN value wins; otherwise 0. -/
def lookupKeys (df : Frame) (c : String) : List String → ℚ
  | [] => 0
  | k :: ks =>
    if k ∈ df.index then
      match df.data k c with
      | .nan => lookupKeys df c ks
      | .val q => q
    else lookupKeys df c ks

/-- `get_value(df, keys, date_col)` from `src/main.py`: 0 when the frame is
empty, the column is `None` or absent; otherwise multi-key fallback lookup. -/
def getValue (df : Frame) (keys : List String) (dateCol : Option String) : ℚ :=
  match dateCol with
  | none => 0
  | some c =>
    if df.isEmpty then 0
    else if c ∈ df.cols then lookupKeys df c keys
    else 0

/-- `CONST_NOPAT_RATE = 0.6` (M). -/
def CONST_NOPAT_RATE : ℚ := 6/10

/-- `CONST_PAYOUT_RATE = 0.4` (N). -/
def CONST_PAYOUT_RATE : ℚ := 4/10

/-- `CONST_MARKET_YIELD = 0.021` (V). -/
def CONST_MARKET_YIELD : ℚ := 21/1000

/-- The per-ticker external data visible to `analyze_stock`: the scraped
Yahoo! Japan profile, the yfinance `info` dict fields it reads, and the
financial/balance-sheet frames. -/
structure StockInput where
  ticker : String
  yjName : String
  yjSector : String
  /-- `yj_data["payout_ratio"]`, already on the 0-100 percent scale. -/
  yjPayout : Option ℚ
  /-- `info.get("payoutRatio")`, on the 0-1 fraction scale. -/
  infoPayoutFrac : Option ℚ
  infoMarketCap : Option ℚ
  infoShares : Option ℚ
  infoCurrentPrice : Option JNum
  infoPrevClose : Option JNum
  fins : Frame
  bs : Frame

/-- The batch price cache: ticker to entry, where an entry itself may be
`None` (a failed bulk fetch stores `None`). -/
def PriceCache : Type := List (String × Option JNum)

/-- `current_price_cache.get(ticker)`: `None` for an absent key, else the
stored entry (which may itself be `None`). -/
def cacheGet (cache : PriceCache) (t : String) : Option JNum :=
  (List.lookup t cache).join

/-- Lines 216-218 of `analyze_stock`: the cached price if truthy, else
`info.get("currentPrice") or info.get("previousClose")`. -/
def resolvedPrice (i : StockInput) (cache : PriceCache) : Option JNum :=
  let cp := cacheGet cache i.ticker
  if optTruthy cp then cp else pyOr i.infoCurrentPrice i.infoPrevClose

/-- Latest fiscal date label, `dates[0]`. -/
def latestOf (i : StockInput) : String := i.fins.cols.headD ""

/-- `get_value(fins, ['Total Revenue'], latest_date)`. -/
def revenueOf (i : StockInput) : ℚ :=
  getValue i.fins ["Total Revenue"] (some (latestOf i))

/-- `get_value(fins, ['Operating Income', 'Operating Profit'], latest_date)`. -/
def opIncomeOf (i : StockInput) : ℚ :=
  getValue i.fins ["Operating Income", "Operating Profit"] (some (latestOf i))

/-- `get_value(bs, ['Total Stockholder Equity', 'Total Equity', 'Stockholders Equity'], bs.columns[0])`. -/
def equityOf (i : StockInput) : ℚ :=
  getValue i.bs ["Total Stockholder Equity", "Total Equity", "Stockholders Equity"] i.bs.cols[0]?

/-- Revenue of the `k`-th most recent period, `get_value(fins, ['Total Revenue'], dates[k])`. -/
def revAt (i : StockInput) (k : ℕ) : ℚ :=
  getValue i.fins ["Total Revenue"] i.fins.cols[k]?

/-- Gate 2's payout source (lines 246-251): the scraped value wins; else the
provider fraction scaled by 100. -/
def payoutOf (i : StockInput) : Option ℚ :=
  match i.yjPayout with
  | some p => some p
  | none =>
    match i.infoPayoutFrac with
    | some v => some (v * 100)
    | none => none

/-- The result record `res` of `analyze_stock` (columns B..AB). -/
structure AnalysisResult where
  B_cost_ratio : Option ℚ
  C_judge1 : String
  D_payout : Option ℚ
  E_judge2 : String
  F_cagr : Option ℝ
  G_judge3 : String
  H_cap : Option ℚ
  I_shares : Option ℚ
  J_equity : Option ℚ
  K_op_income : Option ℚ
  L_date : Option String
  M_nopat_k : ℚ
  N_div_k : ℚ
  O_nopat : Option ℚ
  P_pseudo_div : Option ℚ
  Q_pseudo_roe : Option ℚ
  R_roe_class : Option String
  S_7y_mult : Option ℚ
  T_7y_div : Option ℚ
  U_fut_yield : Option ℚ
  V_mkt_yield : ℚ
  W_upside : Option ℚ
  X_price : Option JNum
  Y_target : Option JNum
  Z_final : String
  AA_name : String
  AB_sector : String

/-- The initial `res` dictionary of `analyze_stock` (everything unknown,
judgments `不合格`). -/
def initResult : AnalysisResult where
  B_cost_ratio := none
  C_judge1 := "不合格"
  D_payout := none
  E_judge2 := "不合格"
  F_cagr := none
  G_judge3 := "不合格"
  H_cap := none
  I_shares := none
  J_equity := none
  K_op_income := none
  L_date := none
  M_nopat_k := CONST_NOPAT_RATE
  N_div_k := CONST_PAYOUT_RATE
  O_nopat := none
  P_pseudo_div := none
  Q_pseudo_roe := none
  R_roe_class := none
  S_7y_mult := none
  T_7y_div := none
  U_fut_yield := none
  V_mkt_yield := CONST_MARKET_YIELD
  W_upside := none
  X_price := none
  Y_target := none
  Z_final := "不合格"
  AA_name := ""
  AB_sector := ""

/-- A judgment cell: `合格` when the flag is set, else the initial `不合格`. -/
def judgeStr (b : Bool) : String := if b then "合格" else "不合格"

/-- The record right after the scraped name/sector assignments (the state
`res` has when the yfinance fetch is about to run). -/
def baseRecord (i : StockInput) : AnalysisResult :=
  { initResult with AA_name := i.yjName, AB_sector := i.yjSector }

/-- Gate 1 (lines 231-243): returns the `B` cell and the pass flag.
`cost = revenue - op_income`; requires all three positive, pass iff
`revenue / cost >= 1.15`. -/
def gate1 (revenue op_income : ℚ) : Option ℚ × Bool :=
  let cost := revenue - op_income
  if 0 < revenue ∧ 0 < op_income ∧ 0 < cost then
    let ratio := revenue / cost
    (some (pyRound ratio 2), decide (115/100 ≤ ratio))
  else (none, false)

/-- Gate 2 (lines 253-261): returns the `D` cell and the pass flag.
Pass iff `20 <= payout <= 60`; an unresolved payout fails. -/
def gate2 (payout : Option ℚ) : Option ℚ × Bool :=
  match payout with
  | some p => (some (pyRound p 2), decide (20 ≤ p ∧ p ≤ 60))
  | none => (none, false)

/-- `(revs[0] / revs[3]) ** (1/3) - 1` as an exact real. -/
noncomputable def cagrReal (r0 r3 : ℚ) : ℝ :=
  Real.rpow ((r0 / r3 : ℚ) : ℝ) (1/3) - 1

/-- Gate 3 (lines 265-284): returns the `F` (CAGR) cell and the pass flag.
Needs at least 4 periods; inside the all-positive branch the strictly
decreasing chain sets the flag and the CAGR cell is set either way. -/
noncomputable def gate3 (fins : Frame) : Option ℝ × Bool :=
  let dates := fins.cols
  if 4 ≤ dates.length then
    let r0 := getValue fins ["Total Revenue"] dates[0]?
    let r1 := getValue fins ["Total Revenue"] dates[1]?
    let r2 := getValue fins ["Total Revenue"] dates[2]?
    let r3 := getValue fins ["Total Revenue"] dates[3]?
    if 0 < r0 ∧ 0 < r1 ∧ 0 < r2 ∧ 0 < r3 then
      (some (pyRound (cagrReal r0 r3 * 100) 2),
       decide (r1 < r0 ∧ r2 < r1 ∧ r3 < r2))
    else (none, false)
  else (none, false)

/-- ROE band and 7-year multiplier (lines 337-348): thresholds inclusive at
their lower bounds. -/
def roeTier (roe_val : ℚ) : String × ℚ :=
  if 20 ≤ roe_val then ("20%以上", 4)
  else if 15 ≤ roe_val then ("15-20%", 3)
  else if 10 ≤ roe_val then ("10-15%", 2)
  else ("10%未満", 3/2)

/-- The raw (unrounded) upside multiple of the valuation cascade:
`((op*M*N) * mult(pseudoROE%)) / cap / V`. -/
def rawUpside (op_income equity cap : ℚ) : ℚ :=
  let nopat := op_income * CONST_NOPAT_RATE
  let pseudo_div := nopat * CONST_PAYOUT_RATE
  let pseudo_roe := nopat / equity
  let tier := roeTier (pseudo_roe * 100)
  let fut_div := pseudo_div * tier.2
  let fut_yield := fut_div / cap
  fut_yield / CONST_MARKET_YIELD

/-- Phase 2 + phase 3 of `analyze_stock` (lines 296-375): the valuation
cascade with its early returns, starting from the post-gate record. -/
def cascade (res : AnalysisResult) (capO sharesO : Option ℚ) (equity op_income : ℚ)
    (latest : String) (cp : Option JNum) : AnalysisResult :=
  match capO with
  | none => res
  | some cap =>
    if cap = 0 then res else
    let res := { res with H_cap := some cap }
    match sharesO with
    | none => res
    | some shares =>
      if shares = 0 then res else
      let res := { res with I_shares := some shares }
      if equity = 0 then res else
      let res := { res with J_equity := some equity, K_op_income := some op_income,
                            L_date := some latest }
      let nopat := op_income * CONST_NOPAT_RATE
      let pseudo_div := nopat * CONST_PAYOUT_RATE
      let res := { res with O_nopat := some nopat, P_pseudo_div := some pseudo_div }
      if ¬ (0 < equity) then res else
      let pseudo_roe := nopat / equity
      let tier := roeTier (pseudo_roe * 100)
      let res := { res with Q_pseudo_roe := some (pyRound (pseudo_roe * 100) 2),
                            R_roe_class := some tier.1, S_7y_mult := some tier.2 }
      let fut_div := pseudo_div * tier.2
      let res := { res with T_7y_div := some fut_div }
      if ¬ (0 < cap) then res else
      let fut_yield := fut_div / cap
      let upside := fut_yield / CONST_MARKET_YIELD
      let res := { res with U_fut_yield := some (pyRound (fut_yield * 100) 2),
                            W_upside := some (pyRound upside 2) }
      if ¬ (optTruthy cp = true) then res else
      let target := JNum.mulQ (cp.getD (.val 0)) upside
      let res := { res with Y_target := some target.round0 }
      if 2 ≤ upside then { res with Z_final := "合格" } else res

/-- The body of `analyze_stock`'s `try` block: builds the result record
through the three gates and (when all pass) the valuation cascade. -/
noncomputable def analyzeBody (i : StockInput) (cache : PriceCache) : AnalysisResult :=
  let res0 := baseRecord i
  if i.fins.isEmpty || i.bs.isEmpty then res0 else
  let res1 := { res0 with X_price := resolvedPrice i cache }
  if i.fins.cols.length = 0 then res1 else
  let g1 := gate1 (revenueOf i) (opIncomeOf i)
  let g2 := gate2 (payoutOf i)
  let g3 := gate3 i.fins
  let res4 := { res1 with B_cost_ratio := g1.1, C_judge1 := judgeStr g1.2,
                          D_payout := g2.1, E_judge2 := judgeStr g2.2,
                          F_cagr := g3.1, G_judge3 := judgeStr g3.2 }
  if ¬ (g1.2 = true ∧ g2.2 = true ∧ g3.2 = true) then res4 else
  cascade res4 i.infoMarketCap i.infoShares (equityOf i) (opIncomeOf i)
    (latestOf i) (resolvedPrice i cache)

/-- A spreadsheet cell value as produced by `format_result`: `pyNone` models
a Python `None` before sanitization; numbers keep their possibly-NaN value. -/
inductive Cell where
  | pyNone : Cell
  | str (s : String) : Cell
  | num (x : JNum) : Cell
  | real (x : ℝ) : Cell

/-- Is the cell a Python `None`? -/
def Cell.isNull : Cell → Bool
  | .pyNone => true
  | _ => false

/-- Embed an optional rational field. -/
def qCell : Option ℚ → Cell
  | none => .pyNone
  | some q => .num (.val q)

/-- Embed an optional possibly-NaN field. -/
def jCell : Option JNum → Cell
  | none => .pyNone
  | some x => .num x

/-- Embed the optional real-valued CAGR field. -/
def rCell : Option ℝ → Cell
  | none => .pyNone
  | some x => .real x

/-- Embed an optional string field. -/
def sCell : Option String → Cell
  | none => .pyNone
  | some s => .str s

/-- The `row = [...]` list literal of `format_result` (columns B..AB in
order), before the `None`-to-empty sanitization. -/
def rawRow (r : AnalysisResult) : List Cell :=
  [ qCell r.B_cost_ratio, .str r.C_judge1,
    qCell r.D_payout, .str r.E_judge2,
    rCell r.F_cagr, .str r.G_judge3,
    qCell r.H_cap, qCell r.I_shares, qCell r.J_equity, qCell r.K_op_income,
    sCell r.L_date,
    .num (.val r.M_nopat_k), .num (.val r.N_div_k),
    qCell r.O_nopat, qCell r.P_pseudo_div, qCell r.Q_pseudo_roe,
    sCell r.R_roe_class, qCell r.S_7y_mult, qCell r.T_7y_div,
    qCell r.U_fut_yield, .num (.val r.V_mkt_yield),
    qCell r.W_upside, jCell r.X_price, jCell r.Y_target,
    .str r.Z_final,
    .str r.AA_name, .str r.AB_sector ]

/-- The sanitization comprehension `[x if x is not None else "" for x in row]`:
only `None` is replaced, by the empty string. -/
def sanitize : Cell → Cell
  | .pyNone => .str ""
  | c => c

/-- `format_result(r)`: the fixed-order row with `None` sanitized to `""`. -/
def formatResult (r : AnalysisResult) : List Cell :=
  (rawRow r).map sanitize

/-- `analyze_stock` at the ticker boundary: when the yfinance fetch raises,
the broad `except` returns the record as mutated so far (name/sector only);
otherwise the full body runs.  Either way `format_result` is applied. -/
noncomputable def analyzeStock (i : StockInput) (cache : PriceCache)
    (fetchFault : Bool) : List Cell :=
  if fetchFault then formatResult (baseRecord i)
  else formatResult (analyzeBody i cache)

/-- `[""] * 27`, the all-blank row used when `future.result()` raises. -/
def blankRow : List Cell := List.replicate 27 (Cell.str "")

/-- One worker invocation as collected in `main` (lines 473-481): a raising
invocation is replaced by the all-blank row. -/
noncomputable def runTicker (i : StockInput) (cache : PriceCache)
    (fetchFault invocationFault : Bool) : List Cell :=
  if invocationFault then blankRow else analyzeStock i cache fetchFault

/-- Lines 484-486 of `main`: assemble `output_rows` in original ticker
order, defaulting a missing map entry to the blank row. -/
def outputRows (tickers : List String) (resultsMap : String → Option (List Cell)) :
    List (List Cell) :=
  tickers.map (fun t => (resultsMap t).getD blankRow)

/-- The whole per-run row production of `main`: every ticker is analyzed
(with its own fault flags) and collected in order. -/
noncomputable def scheduleRows (tickers : List String) (inputOf : String → StockInput)
    (cache : PriceCache) (fetchFault invocationFault : String → Bool) :
    List (List Cell) :=
  outputRows tickers
    (fun t => some (runTicker (inputOf t) cache (fetchFault t) (invocationFault t)))

/-- One sheet write: 1-based start row, end row, and the written rows. -/
structure SheetWrite where
  startRow : ℕ
  endRow : ℕ
  rows : List (List Cell)

/-- Lines 490-493 of `main`: the data writes performed for `output_rows` —
a single update of `B2:AB{2 + len(output_rows) - 1}` when non-empty. -/
def sinkWrites (output_rows : List (List Cell)) : List SheetWrite :=
  if output_rows.isEmpty then []
  else [⟨2, 2 + output_rows.length - 1, output_rows⟩]

/-! Concrete inputs used by witnesses and counterexamples. -/

/-- A financials frame with four periods of revenue 130 > 120 > 110 > 100
and latest operating income 30. -/
def finsA : Frame where
  index := ["Total Revenue", "Operating Income"]
  cols := ["2024-03-31", "2023-03-31", "2022-03-31", "2021-03-31"]
  data := fun k c =>
    if k = "Total Revenue" then
      if c = "2024-03-31" then .val 130
      else if c = "2023-03-31" then .val 120
      else if c = "2022-03-31" then .val 110
      else .val 100
    else if k = "Operating Income" then .val 30
    else .val 0

/-- A balance sheet frame with equity 50. -/
def bsA : Frame where
  index := ["Total Stockholder Equity"]
  cols := ["2024-03-31"]
  data := fun _ _ => .val 50

/-- An input that passes all three gates and every cascade check but has no
resolvable price anywhere. -/
def inputA : StockInput where
  ticker := "7203.T"
  yjName := "テスト"
  yjSector := "機械"
  yjPayout := some 30
  infoPayoutFrac := none
  infoMarketCap := some 100
  infoShares := some 10
  infoCurrentPrice := none
  infoPrevClose := none
  fins := finsA
  bs := bsA

/-! Structural lemmas about the embedded engine. -/

/-- The valuation cascade never modifies the gate-phase and descriptive
fields of the record it extends. -/
theorem cascade_preserves (res : AnalysisResult) (capO sharesO : Option ℚ)
    (e op : ℚ) (l : String) (cp : Option JNum) :
    (cascade res capO sharesO e op l cp).B_cost_ratio = res.B_cost_ratio ∧
    (cascade res capO sharesO e op l cp).C_judge1 = res.C_judge1 ∧
    (cascade res capO sharesO e op l cp).D_payout = res.D_payout ∧
    (cascade res capO sharesO e op l cp).E_judge2 = res.E_judge2 ∧
    (cascade res capO sharesO e op l cp).F_cagr = res.F_cagr ∧
    (cascade res capO sharesO e op l cp).G_judge3 = res.G_judge3 ∧
    (cascade res capO sharesO e op l cp).X_price = res.X_price ∧
    (cascade res capO sharesO e op l cp).AA_name = res.AA_name ∧
    (cascade res capO sharesO e op l cp).AB_sector = res.AB_sector := by
  unfold cascade
  cases capO <;> cases sharesO <;> dsimp only <;> (try split_ifs) <;>
    exact ⟨rfl, rfl, rfl, rfl, rfl, rfl, rfl, rfl, rfl⟩

theorem ng_ne_ok : ("不合格" : String) ≠ "合格" := by decide

/-- When every cascade guard passes, the cap/shares/equity/op-income/date
fields are recorded. -/
theorem cascade_fields_val (res : AnalysisResult) (c s e op : ℚ) (l : String)
    (cp : Option JNum) (hc0 : c ≠ 0) (hs0 : s ≠ 0) (he0 : e ≠ 0) :
    (cascade res (some c) (some s) e op l cp).H_cap = some c ∧
    (cascade res (some c) (some s) e op l cp).I_shares = some s ∧
    (cascade res (some c) (some s) e op l cp).J_equity = some e ∧
    (cascade res (some c) (some s) e op l cp).K_op_income = some op ∧
    (cascade res (some c) (some s) e op l cp).L_date = some l := by
  unfold cascade
  dsimp only
  rw [if_neg hc0, if_neg hs0, if_neg he0]
  split_ifs <;> exact ⟨rfl, rfl, rfl, rfl, rfl⟩

/-- When every guard up to the cap-positivity check passes, the recorded
upside multiple is the rounded raw upside. -/
theorem cascade_W_val (res : AnalysisResult) (c s e op : ℚ) (l : String)
    (cp : Option JNum) (hs0 : s ≠ 0) (he : 0 < e) (hc0 : 0 < c) :
    (cascade res (some c) (some s) e op l cp).W_upside
      = some (pyRound (rawUpside op e c) 2) := by
  unfold cascade rawUpside
  dsimp only
  rw [if_neg (ne_of_gt hc0), if_neg hs0, if_neg (ne_of_gt he),
    if_neg (not_not_intro he), if_neg (not_not_intro hc0)]
  split_ifs <;> rfl

/-- Conversely, a recorded upside multiple pins down the guard conditions
and its own value. -/
theorem cascade_W_some (res : AnalysisResult) (capO sharesO : Option ℚ)
    (e op : ℚ) (l : String) (cp : Option JNum) (w : ℚ)
    (hW : res.W_upside = none)
    (h : (cascade res capO sharesO e op l cp).W_upside = some w) :
    ∃ c s, capO = some c ∧ sharesO = some s ∧ s ≠ 0 ∧ 0 < e ∧ 0 < c ∧
      w = pyRound (rawUpside op e c) 2 := by
  unfold cascade at h
  cases capO with
  | none => rw [hW] at h; exact absurd h (by simp)
  | some c =>
    cases sharesO with
    | none =>
      dsimp only at h
      split_ifs at h <;> (rw [hW] at h; exact absurd h (by simp))
    | some s =>
      dsimp only at h
      unfold rawUpside
      split_ifs at h with hc hs he hE hC hT hU <;>
        first
          | (rw [hW] at h; exact absurd h (by simp))
          | (rw [Option.some.injEq] at h
             exact ⟨c, s, rfl, rfl, hs, hE, hC, h.symm⟩)

/-- Characterization of the final verdict produced by the cascade. -/
theorem cascade_Z (res : AnalysisResult) (capO sharesO : Option ℚ)
    (e op : ℚ) (l : String) (cp : Option JNum)
    (hZ : res.Z_final = "不合格") :
    ((cascade res capO sharesO e op l cp).Z_final = "合格" ↔
      ∃ c s, capO = some c ∧ sharesO = some s ∧ s ≠ 0 ∧ 0 < e ∧ 0 < c ∧
        optTruthy cp = true ∧ 2 ≤ rawUpside op e c) := by
  unfold cascade
  cases capO with
  | none => simp [hZ, ng_ne_ok]
  | some c =>
    cases sharesO with
    | none =>
      dsimp only
      split_ifs <;> simp [hZ, ng_ne_ok]
    | some s =>
      dsimp only
      unfold rawUpside
      split_ifs with hc hs he hE hC hT hU <;>
        constructor <;>
          first
            | (intro h; rw [hZ] at h; exact absurd h ng_ne_ok)
            | (intro h; exact ⟨c, s, rfl, rfl, hs, hE, hC, hT, hU⟩)
            | (rintro ⟨c', s', hc', hs', h1, h2, h3, h4, h5⟩
               rw [Option.some.injEq] at hc' hs'
               subst hc'; subst hs'
               first
                 | exact absurd rfl (by simp_all)
                 | exact absurd h3 (by simp_all))
            | (intro _; rfl)

/-- Gate 1 pass characterization. -/
theorem gate1_pass_iff (rev op : ℚ) :
    (gate1 rev op).2 = true ↔
      0 < rev ∧ 0 < op ∧ 0 < rev - op ∧ 115/100 ≤ rev / (rev - op) := by
  unfold gate1
  dsimp only
  split_ifs with h
  · rw [decide_eq_true_eq]
    exact ⟨fun hle => ⟨h.1, h.2.1, h.2.2, hle⟩, fun hb => hb.2.2.2⟩
  · constructor
    · intro hF; exact absurd hF (by simp)
    · rintro ⟨h1, h2, h3, _⟩; exact absurd ⟨h1, h2, h3⟩ h

/-- Gate 2 pass characterization. -/
theorem gate2_pass_iff (p? : Option ℚ) :
    (gate2 p?).2 = true ↔ ∃ p, p? = some p ∧ 20 ≤ p ∧ p ≤ 60 := by
  cases p? with
  | none => simp [gate2]
  | some p => simp [gate2]

/-- Gate 3 pass characterization, phrased through `revAt`. -/
theorem gate3_pass_iff (i : StockInput) :
    ((gate3 i.fins).2 = true ↔
      4 ≤ i.fins.cols.length ∧
      0 < revAt i 0 ∧ 0 < revAt i 1 ∧ 0 < revAt i 2 ∧ 0 < revAt i 3 ∧
      revAt i 1 < revAt i 0 ∧ revAt i 2 < revAt i 1 ∧ revAt i 3 < revAt i 2) := by
  unfold gate3
  dsimp only
  split_ifs with h4 hpos
  · rw [decide_eq_true_eq]
    unfold revAt
    exact ⟨fun hd => ⟨h4, hpos.1, hpos.2.1, hpos.2.2.1, hpos.2.2.2, hd.1, hd.2.1, hd.2.2⟩,
      fun hb => ⟨hb.2.2.2.2.2.1, hb.2.2.2.2.2.2.1, hb.2.2.2.2.2.2.2⟩⟩
  · constructor
    · intro hF; exact absurd hF (by simp)
    · rintro ⟨_, h0, h1, h2, h3, _⟩
      exact absurd ⟨h0, h1, h2, h3⟩ hpos
  · constructor
    · intro hF; exact absurd hF (by simp)
    · rintro ⟨hlen, _⟩; exact absurd hlen h4

/-- The CAGR cell is set exactly when four periods of strictly positive
revenue are present. -/
theorem gate3_fst_ne_none_iff (i : StockInput) :
    ((gate3 i.fins).1 ≠ none ↔
      4 ≤ i.fins.cols.length ∧
      0 < revAt i 0 ∧ 0 < revAt i 1 ∧ 0 < revAt i 2 ∧ 0 < revAt i 3) := by
  unfold gate3
  dsimp only
  split_ifs with h4 hpos
  · unfold revAt
    simp only [ne_eq, Option.some_ne_none, not_false_eq_true, true_iff]
    exact ⟨h4, hpos.1, hpos.2.1, hpos.2.2.1, hpos.2.2.2⟩
  · simp only [ne_eq, not_true_eq_false, false_iff, not_and]
    intro _ h0 h1 h2 h3
    exact absurd ⟨h0, h1, h2, h3⟩ hpos
  · simp only [ne_eq, not_true_eq_false, false_iff, not_and]
    intro hlen; exact absurd hlen h4

/-- The value of the CAGR cell when it is set. -/
theorem gate3_fst_val (i : StockInput) (h4 : 4 ≤ i.fins.cols.length)
    (h0 : 0 < revAt i 0) (h1 : 0 < revAt i 1) (h2 : 0 < revAt i 2)
    (h3 : 0 < revAt i 3) :
    (gate3 i.fins).1 = some (pyRound (cagrReal (revAt i 0) (revAt i 3) * 100) 2) := by
  unfold gate3
  dsimp only
  rw [if_pos h4, if_pos (⟨h0, h1, h2, h3⟩ :
    0 < getValue i.fins ["Total Revenue"] i.fins.cols[0]? ∧
    0 < getValue i.fins ["Total Revenue"] i.fins.cols[1]? ∧
    0 < getValue i.fins ["Total Revenue"] i.fins.cols[2]? ∧
    0 < getValue i.fins ["Total Revenue"] i.fins.cols[3]?)]
  rfl

/-- The record assembled by `analyze_stock` after the three gates. -/
noncomputable def gatesRecord (i : StockInput) (cache : PriceCache) : AnalysisResult :=
  { initResult with
      AA_name := i.yjName, AB_sector := i.yjSector,
      X_price := resolvedPrice i cache,
      B_cost_ratio := (gate1 (revenueOf i) (opIncomeOf i)).1,
      C_judge1 := judgeStr (gate1 (revenueOf i) (opIncomeOf i)).2,
      D_payout := (gate2 (payoutOf i)).1,
      E_judge2 := judgeStr (gate2 (payoutOf i)).2,
      F_cagr := (gate3 i.fins).1,
      G_judge3 := judgeStr (gate3 i.fins).2 }

/-- Nonempty frames ensure a nonempty list of fiscal dates. -/
theorem fins_cols_ne_zero (i : StockInput)
    (hne : (i.fins.isEmpty || i.bs.isEmpty) = false) : ¬ i.fins.cols.length = 0 := by
  intro h0
  have hnil := List.length_eq_zero.mp h0
  simp [Frame.isEmpty, hnil] at hne

/-- `analyze_stock` on nonempty frames: the gate phase always runs, and the
cascade runs exactly when all three gates pass. -/
theorem analyzeBody_eq (i : StockInput) (cache : PriceCache)
    (hne : (i.fins.isEmpty || i.bs.isEmpty) = false) :
    analyzeBody i cache =
      if (gate1 (revenueOf i) (opIncomeOf i)).2 = true ∧ (gate2 (payoutOf i)).2 = true ∧
          (gate3 i.fins).2 = true then
        cascade (gatesRecord i cache) i.infoMarketCap i.infoShares (equityOf i)
          (opIncomeOf i) (latestOf i) (resolvedPrice i cache)
      else gatesRecord i cache := by
  unfold analyzeBody
  rw [if_neg (by simp [hne]), if_neg (fins_cols_ne_zero i hne), ite_not]
  rfl

/-- `analyze_stock` on empty frames returns the initial record with only the
scraped name and sector filled. -/
theorem analyzeBody_empty (i : StockInput) (cache : PriceCache)
    (hne : (i.fins.isEmpty || i.bs.isEmpty) = true) :
    analyzeBody i cache = baseRecord i := by
  unfold analyzeBody
  rw [if_pos hne]

/-- The gate-phase and descriptive fields of the final record. -/
theorem analyzeBody_gateFields (i : StockInput) (cache : PriceCache)
    (hne : (i.fins.isEmpty || i.bs.isEmpty) = false) :
    (analyzeBody i cache).B_cost_ratio = (gate1 (revenueOf i) (opIncomeOf i)).1 ∧
    (analyzeBody i cache).C_judge1 = judgeStr (gate1 (revenueOf i) (opIncomeOf i)).2 ∧
    (analyzeBody i cache).D_payout = (gate2 (payoutOf i)).1 ∧
    (analyzeBody i cache).E_judge2 = judgeStr (gate2 (payoutOf i)).2 ∧
    (analyzeBody i cache).F_cagr = (gate3 i.fins).1 ∧
    (analyzeBody i cache).G_judge3 = judgeStr (gate3 i.fins).2 ∧
    (analyzeBody i cache).X_price = resolvedPrice i cache := by
  rw [analyzeBody_eq i cache hne]
  split_ifs with hg
  · have hp := cascade_preserves (gatesRecord i cache) i.infoMarketCap i.infoShares
      (equityOf i) (opIncomeOf i) (latestOf i) (resolvedPrice i cache)
    exact ⟨hp.1, hp.2.1, hp.2.2.1, hp.2.2.2.1, hp.2.2.2.2.1, hp.2.2.2.2.2.1,
      hp.2.2.2.2.2.2.1⟩
  · exact ⟨rfl, rfl, rfl, rfl, rfl, rfl, rfl⟩

/-- Verdict characterization of the full analysis (nonempty frames). -/
theorem analyzeBody_Z (i : StockInput) (cache : PriceCache)
    (hne : (i.fins.isEmpty || i.bs.isEmpty) = false) :
    ((analyzeBody i cache).Z_final = "合格" ↔
      (gate1 (revenueOf i) (opIncomeOf i)).2 = true ∧ (gate2 (payoutOf i)).2 = true ∧
      (gate3 i.fins).2 = true ∧
      ∃ c s, i.infoMarketCap = some c ∧ i.infoShares = some s ∧ s ≠ 0 ∧
        0 < equityOf i ∧ 0 < c ∧ optTruthy (resolvedPrice i cache) = true ∧
        2 ≤ rawUpside (opIncomeOf i) (equityOf i) c) := by
  rw [analyzeBody_eq i cache hne]
  split_ifs with hg
  · rw [cascade_Z _ _ _ _ _ _ _ (rfl : (gatesRecord i cache).Z_final = "不合格")]
    exact ⟨fun h => ⟨hg.1, hg.2.1, hg.2.2, h⟩, fun h => h.2.2.2⟩
  · constructor
    · intro h; exact absurd h ng_ne_ok
    · rintro ⟨h1, h2, h3, _⟩; exact absurd ⟨h1, h2, h3⟩ hg

/-- A recorded upside multiple pins down all upstream guard conditions and
its own value. -/
theorem analyzeBody_W_some (i : StockInput) (cache : PriceCache) (w : ℚ)
    (h : (analyzeBody i cache).W_upside = some w) :
    (i.fins.isEmpty || i.bs.isEmpty) = false ∧
    (gate1 (revenueOf i) (opIncomeOf i)).2 = true ∧
    (gate2 (payoutOf i)).2 = true ∧ (gate3 i.fins).2 = true ∧
    ∃ c s, i.infoMarketCap = some c ∧ i.infoShares = some s ∧ s ≠ 0 ∧
      0 < equityOf i ∧ 0 < c ∧
      w = pyRound (rawUpside (opIncomeOf i) (equityOf i) c) 2 := by
  by_cases hne : (i.fins.isEmpty || i.bs.isEmpty) = true
  · rw [analyzeBody_empty i cache hne] at h
    exact absurd h (by simp [baseRecord, initResult])
  · have hne' : (i.fins.isEmpty || i.bs.isEmpty) = false := by
      cases hb : (i.fins.isEmpty || i.bs.isEmpty) <;> simp_all
    rw [analyzeBody_eq i cache hne'] at h
    split_ifs at h with hg
    · obtain ⟨c, s, hc, hs, hs0, he, hc0, hw⟩ :=
        cascade_W_some (gatesRecord i cache) _ _ _ _ _ _ w rfl h
      exact ⟨hne', hg.1, hg.2.1, hg.2.2, c, s, hc, hs, hs0, he, hc0, hw⟩
    · exact absurd h (by simp [gatesRecord, initResult])

/-- The recorded upside multiple when the cascade reaches it. -/
theorem analyzeBody_W_val (i : StockInput) (cache : PriceCache)
    (hne : (i.fins.isEmpty || i.bs.isEmpty) = false)
    (hg1 : (gate1 (revenueOf i) (opIncomeOf i)).2 = true)
    (hg2 : (gate2 (payoutOf i)).2 = true) (hg3 : (gate3 i.fins).2 = true)
    (c s : ℚ) (hc : i.infoMarketCap = some c) (hs : i.infoShares = some s)
    (hs0 : s ≠ 0) (he : 0 < equityOf i) (hc0 : 0 < c) :
    (analyzeBody i cache).W_upside
      = some (pyRound (rawUpside (opIncomeOf i) (equityOf i) c) 2) := by
  rw [analyzeBody_eq i cache hne, if_pos ⟨hg1, hg2, hg3⟩, hc, hs]
  exact cascade_W_val _ c s _ _ _ _ hs0 he hc0

/-- The cap/shares/equity fields when the corresponding guards pass. -/
theorem analyzeBody_HIJ (i : StockInput) (cache : PriceCache)
    (hne : (i.fins.isEmpty || i.bs.isEmpty) = false)
    (hg1 : (gate1 (revenueOf i) (opIncomeOf i)).2 = true)
    (hg2 : (gate2 (payoutOf i)).2 = true) (hg3 : (gate3 i.fins).2 = true)
    (c s : ℚ) (hc : i.infoMarketCap = some c) (hs : i.infoShares = some s)
    (hc0 : c ≠ 0) (hs0 : s ≠ 0) (he0 : equityOf i ≠ 0) :
    (analyzeBody i cache).H_cap = some c ∧
    (analyzeBody i cache).I_shares = some s ∧
    (analyzeBody i cache).J_equity = some (equityOf i) := by
  rw [analyzeBody_eq i cache hne, if_pos ⟨hg1, hg2, hg3⟩, hc, hs]
  have := cascade_fields_val (gatesRecord i cache) c s (equityOf i) (opIncomeOf i)
    (latestOf i) (resolvedPrice i cache) hc0 hs0 he0
  exact ⟨this.1, this.2.1, this.2.2.1⟩

/-! Monotonicity facts. -/

/-- Round-half-to-even is monotone. -/
theorem roundHE_mono {α : Type} [LinearOrderedField α] [FloorRing α] {x y : α}
    (h : x ≤ y) : roundHE x ≤ roundHE y := by
  have hfl : (⌊x⌋ : ℤ) ≤ ⌊y⌋ := Int.floor_mono h
  unfold roundHE
  dsimp only
  rcases lt_or_eq_of_le hfl with hlt | heq
  · split_ifs <;> omega
  · rw [← heq]
    split_ifs <;> first | omega | linarith

/-- `round(x, n)` is monotone. -/
theorem pyRound_mono {α : Type} [LinearOrderedField α] [FloorRing α] (n : ℕ)
    {x y : α} (h : x ≤ y) : pyRound x n ≤ pyRound y n := by
  unfold pyRound
  have h10 : (0:α) < 10 ^ n := by positivity
  apply div_le_div_of_nonneg_right ?_ (le_of_lt h10)
  exact_mod_cast roundHE_mono (mul_le_mul_of_nonneg_right h (le_of_lt h10))

/-- The 7-year multiplier is monotone in the ROE percentage. -/
theorem roeTier_snd_mono {r1 r2 : ℚ} (h : r1 ≤ r2) :
    (roeTier r1).2 ≤ (roeTier r2).2 := by
  unfold roeTier
  split_ifs <;> dsimp only <;> linarith

/-- The 7-year multiplier is always positive. -/
theorem roeTier_snd_pos (r : ℚ) : 0 < (roeTier r).2 := by
  unfold roeTier
  split_ifs <;> dsimp only <;> norm_num

/-- The raw upside multiple is monotone in operating income (all other
inputs fixed, positive equity and market cap). -/
theorem rawUpside_mono {op1 op2 e c : ℚ} (h0 : 0 ≤ op1) (h12 : op1 ≤ op2)
    (he : 0 < e) (hc : 0 < c) : rawUpside op1 e c ≤ rawUpside op2 e c := by
  unfold rawUpside
  dsimp only
  have hC1 : (0:ℚ) < CONST_NOPAT_RATE := by norm_num [CONST_NOPAT_RATE]
  have hC2 : (0:ℚ) < CONST_PAYOUT_RATE := by norm_num [CONST_PAYOUT_RATE]
  have hC3 : (0:ℚ) < CONST_MARKET_YIELD := by norm_num [CONST_MARKET_YIELD]
  have harg : op1 * CONST_NOPAT_RATE / e * 100 ≤ op2 * CONST_NOPAT_RATE / e * 100 := by
    have h1 : op1 * CONST_NOPAT_RATE ≤ op2 * CONST_NOPAT_RATE :=
      mul_le_mul_of_nonneg_right h12 (le_of_lt hC1)
    have h2 : op1 * CONST_NOPAT_RATE / e ≤ op2 * CONST_NOPAT_RATE / e :=
      div_le_div_of_nonneg_right h1 (le_of_lt he)
    exact mul_le_mul_of_nonneg_right h2 (by norm_num)
  have hm := roeTier_snd_mono harg
  have hnn : 0 ≤ op1 * CONST_NOPAT_RATE * CONST_PAYOUT_RATE :=
    mul_nonneg (mul_nonneg h0 (le_of_lt hC1)) (le_of_lt hC2)
  have hnn2 : 0 ≤ op2 * CONST_NOPAT_RATE * CONST_PAYOUT_RATE := le_trans hnn
    (mul_le_mul_of_nonneg_right (mul_le_mul_of_nonneg_right h12 (le_of_lt hC1))
      (le_of_lt hC2))
  have hprod : op1 * CONST_NOPAT_RATE * CONST_PAYOUT_RATE
        * (roeTier (op1 * CONST_NOPAT_RATE / e * 100)).2
      ≤ op2 * CONST_NOPAT_RATE * CONST_PAYOUT_RATE
        * (roeTier (op2 * CONST_NOPAT_RATE / e * 100)).2 := by
    apply mul_le_mul ?_ hm (le_of_lt (roeTier_snd_pos _)) hnn2
    exact mul_le_mul_of_nonneg_right (mul_le_mul_of_nonneg_right h12 (le_of_lt hC1))
      (le_of_lt hC2)
  have hdiv : op1 * CONST_NOPAT_RATE * CONST_PAYOUT_RATE
        * (roeTier (op1 * CONST_NOPAT_RATE / e * 100)).2 / c
      ≤ op2 * CONST_NOPAT_RATE * CONST_PAYOUT_RATE
        * (roeTier (op2 * CONST_NOPAT_RATE / e * 100)).2 / c :=
    div_le_div_of_nonneg_right hprod (le_of_lt hc)
  exact div_le_div_of_nonneg_right hdiv (le_of_lt hC3)

/-! Serialization facts. -/

/-- `judgeStr b` reads `合格` exactly when the flag is set. -/
theorem judgeStr_eq_ok_iff (b : Bool) : judgeStr b = "合格" ↔ b = true := by
  cases b
  · constructor
    · intro h; exact absurd h ng_ne_ok
    · intro h; exact absurd h (by simp)
  · simp [judgeStr]

/-- Sanitization never leaves a Python `None` behind. -/
theorem sanitize_not_null (c : Cell) : (sanitize c).isNull = false := by
  cases c <;> rfl

/-- The serialized row always has exactly 27 cells. -/
theorem formatResult_length (r : AnalysisResult) : (formatResult r).length = 27 := rfl

/-- No cell of the serialized row is a Python `None`. -/
theorem formatResult_no_null (r : AnalysisResult) :
    ((formatResult r).all fun c => !(c.isNull)) = true := by
  simp [formatResult, rawRow, List.all_cons, sanitize_not_null]

/-- The blank row has 27 cells. -/
theorem blankRow_length : blankRow.length = 27 := rfl

/-- Only-`"合格"`-or-unchanged shape of the cascade verdict. -/
theorem cascade_Z_cases (res : AnalysisResult) (capO sharesO : Option ℚ)
    (e op : ℚ) (l : String) (cp : Option JNum) :
    (cascade res capO sharesO e op l cp).Z_final = res.Z_final ∨
    (cascade res capO sharesO e op l cp).Z_final = "合格" := by
  unfold cascade
  cases capO <;> cases sharesO <;> dsimp only <;> (try split_ifs) <;>
    first | exact Or.inl rfl | exact Or.inr rfl

/-- The analysis verdict is always one of the two judgment strings. -/
theorem analyzeBody_Z_cases (i : StockInput) (cache : PriceCache) :
    (analyzeBody i cache).Z_final = "不合格" ∨
    (analyzeBody i cache).Z_final = "合格" := by
  by_cases hne : (i.fins.isEmpty || i.bs.isEmpty) = true
  · rw [analyzeBody_empty i cache hne]; exact Or.inl rfl
  · have hne' : (i.fins.isEmpty || i.bs.isEmpty) = false := by
      cases hb : (i.fins.isEmpty || i.bs.isEmpty) <;> simp_all
    rw [analyzeBody_eq i cache hne']
    split_ifs with hg
    · exact cascade_Z_cases (gatesRecord i cache) _ _ _ _ _ _
    · exact Or.inl rfl

/-- The ROE band cells, when the cascade reaches them. -/
theorem cascade_RS_val (res : AnalysisResult) (c s e op : ℚ) (l : String)
    (cp : Option JNum) (hc0 : c ≠ 0) (hs0 : s ≠ 0) (he : 0 < e) :
    (cascade res (some c) (some s) e op l cp).R_roe_class
      = some (roeTier (op * CONST_NOPAT_RATE / e * 100)).1 ∧
    (cascade res (some c) (some s) e op l cp).S_7y_mult
      = some (roeTier (op * CONST_NOPAT_RATE / e * 100)).2 := by
  unfold cascade
  dsimp only
  rw [if_neg hc0, if_neg hs0, if_neg (ne_of_gt he), if_neg (not_not_intro he)]
  split_ifs <;> exact ⟨rfl, rfl⟩

/-- The ROE band cells of the full analysis, when the cascade reaches them. -/
theorem analyzeBody_RS_val (i : StockInput) (cache : PriceCache)
    (hne : (i.fins.isEmpty || i.bs.isEmpty) = false)
    (hg1 : (gate1 (revenueOf i) (opIncomeOf i)).2 = true)
    (hg2 : (gate2 (payoutOf i)).2 = true) (hg3 : (gate3 i.fins).2 = true)
    (c s : ℚ) (hc : i.infoMarketCap = some c) (hs : i.infoShares = some s)
    (hc0 : c ≠ 0) (hs0 : s ≠ 0) (he : 0 < equityOf i) :
    (analyzeBody i cache).R_roe_class
      = some (roeTier (opIncomeOf i * CONST_NOPAT_RATE / equityOf i * 100)).1 ∧
    (analyzeBody i cache).S_7y_mult
      = some (roeTier (opIncomeOf i * CONST_NOPAT_RATE / equityOf i * 100)).2 := by
  rw [analyzeBody_eq i cache hne, if_pos ⟨hg1, hg2, hg3⟩, hc, hs]
  exact cascade_RS_val _ c s _ _ _ _ hc0 hs0 he

/-! Remaining concrete inputs. -/

/-- Like `finsA` but with latest operating income 40. -/
def finsA2 : Frame where
  index := ["Total Revenue", "Operating Income"]
  cols := ["2024-03-31", "2023-03-31", "2022-03-31", "2021-03-31"]
  data := fun k c =>
    if k = "Total Revenue" then
      if c = "2024-03-31" then .val 130
      else if c = "2023-03-31" then .val 120
      else if c = "2022-03-31" then .val 110
      else .val 100
    else if k = "Operating Income" then .val 40
    else .val 0

/-- `inputA` with operating income 40 instead of 30. -/
def inputA2 : StockInput :=
  { inputA with fins := finsA2 }

/-- Like `finsA` but with latest operating income 20. -/
def finsB : Frame where
  index := ["Total Revenue", "Operating Income"]
  cols := ["2024-03-31", "2023-03-31", "2022-03-31", "2021-03-31"]
  data := fun k c =>
    if k = "Total Revenue" then
      if c = "2024-03-31" then .val 130
      else if c = "2023-03-31" then .val 120
      else if c = "2022-03-31" then .val 110
      else .val 100
    else if k = "Operating Income" then .val 20
    else .val 0

/-- A balance sheet frame with equity 60. -/
def bsB : Frame where
  index := ["Total Stockholder Equity"]
  cols := ["2024-03-31"]
  data := fun _ _ => .val 60

/-- An input whose pseudo-ROE percentage is exactly 20. -/
def inputB : StockInput where
  ticker := "6501.T"
  yjName := "テスト2"
  yjSector := "機械"
  yjPayout := some 30
  infoPayoutFrac := none
  infoMarketCap := some 100
  infoShares := some 10
  infoCurrentPrice := none
  infoPrevClose := none
  fins := finsB
  bs := bsB

/-- A single-period financials frame with revenue 0 (fails gate 1). -/
def finsN : Frame where
  index := ["Total Revenue"]
  cols := ["2024-03-31"]
  data := fun _ _ => .val 0

/-- A balance sheet frame with a zero entry. -/
def bsN : Frame where
  index := ["Total Stockholder Equity"]
  cols := ["2024-03-31"]
  data := fun _ _ => .val 0

/-- A minimal input whose gates all fail. -/
def inputN : StockInput where
  ticker := "9999.T"
  yjName := ""
  yjSector := "-"
  yjPayout := none
  infoPayoutFrac := none
  infoMarketCap := none
  infoShares := none
  infoCurrentPrice := none
  infoPrevClose := none
  fins := finsN
  bs := bsN

/-- A price cache carrying a NaN close price, as the bulk download stores. -/
def cacheN : PriceCache := [("9999.T", some JNum.nan)]

/-- Four periods of revenue with one negative value. -/
def finsC : Frame where
  index := ["Total Revenue"]
  cols := ["2024-03-31", "2023-03-31", "2022-03-31", "2021-03-31"]
  data := fun _ c =>
    if c = "2024-03-31" then .val 100
    else if c = "2023-03-31" then .val (-5)
    else if c = "2022-03-31" then .val 90
    else .val 80

/-- An input with four fiscal periods but a negative revenue among them. -/
def inputC : StockInput where
  ticker := "8888.T"
  yjName := ""
  yjSector := "-"
  yjPayout := none
  infoPayoutFrac := none
  infoMarketCap := none
  infoShares := none
  infoCurrentPrice := none
  infoPrevClose := none
  fins := finsC
  bs := bsN

/-! Concrete evaluation facts used by witnesses and counterexamples. -/

theorem inputA_hne : (inputA.fins.isEmpty || inputA.bs.isEmpty) = false := by decide

theorem inputA_g1 : (gate1 (revenueOf inputA) (opIncomeOf inputA)).2 = true := by
  refine (gate1_pass_iff _ _).mpr ?_
  have h1 : revenueOf inputA = 130 := by decide
  have h2 : opIncomeOf inputA = 30 := by decide
  rw [h1, h2]; norm_num

theorem inputA_g2 : (gate2 (payoutOf inputA)).2 = true :=
  (gate2_pass_iff _).mpr ⟨30, by decide, by norm_num, by norm_num⟩

theorem inputA_g3 : (gate3 inputA.fins).2 = true :=
  (gate3_pass_iff inputA).mpr (by decide)

theorem inputA_W (cache : PriceCache) :
    (analyzeBody inputA cache).W_upside = some (1371/100) := by
  have h := analyzeBody_W_val inputA cache inputA_hne inputA_g1 inputA_g2 inputA_g3
    100 10 rfl rfl (by norm_num) (by decide) (by norm_num)
  have hop : opIncomeOf inputA = 30 := by decide
  have heq : equityOf inputA = 50 := by decide
  rw [hop, heq] at h
  rw [h]
  norm_num [rawUpside, roeTier, pyRound, roundHE, CONST_NOPAT_RATE,
    CONST_PAYOUT_RATE, CONST_MARKET_YIELD]

theorem inputA2_hne : (inputA2.fins.isEmpty || inputA2.bs.isEmpty) = false := by decide

theorem inputA2_g1 : (gate1 (revenueOf inputA2) (opIncomeOf inputA2)).2 = true := by
  refine (gate1_pass_iff _ _).mpr ?_
  have h1 : revenueOf inputA2 = 130 := by decide
  have h2 : opIncomeOf inputA2 = 40 := by decide
  rw [h1, h2]; norm_num

theorem inputA2_g2 : (gate2 (payoutOf inputA2)).2 = true :=
  (gate2_pass_iff _).mpr ⟨30, by decide, by norm_num, by norm_num⟩

theorem inputA2_g3 : (gate3 inputA2.fins).2 = true :=
  (gate3_pass_iff inputA2).mpr (by decide)

theorem inputA2_W (cache : PriceCache) :
    (analyzeBody inputA2 cache).W_upside = some (1829/100) := by
  have h := analyzeBody_W_val inputA2 cache inputA2_hne inputA2_g1 inputA2_g2 inputA2_g3
    100 10 rfl rfl (by norm_num) (by decide) (by norm_num)
  have hop : opIncomeOf inputA2 = 40 := by decide
  have heq : equityOf inputA2 = 50 := by decide
  rw [hop, heq] at h
  rw [h]
  norm_num [rawUpside, roeTier, pyRound, roundHE, CONST_NOPAT_RATE,
    CONST_PAYOUT_RATE, CONST_MARKET_YIELD]

theorem inputB_hne : (inputB.fins.isEmpty || inputB.bs.isEmpty) = false := by decide

theorem inputB_g1 : (gate1 (revenueOf inputB) (opIncomeOf inputB)).2 = true := by
  refine (gate1_pass_iff _ _).mpr ?_
  have h1 : revenueOf inputB = 130 := by decide
  have h2 : opIncomeOf inputB = 20 := by decide
  rw [h1, h2]; norm_num

theorem inputB_g2 : (gate2 (payoutOf inputB)).2 = true :=
  (gate2_pass_iff _).mpr ⟨30, by decide, by norm_num, by norm_num⟩

theorem inputB_g3 : (gate3 inputB.fins).2 = true :=
  (gate3_pass_iff inputB).mpr (by decide)

theorem inputB_RS :
    (analyzeBody inputB ([] : PriceCache)).R_roe_class = some "20%以上" ∧
    (analyzeBody inputB ([] : PriceCache)).S_7y_mult = some 4 := by
  have h := analyzeBody_RS_val inputB [] inputB_hne inputB_g1 inputB_g2 inputB_g3
    100 10 rfl rfl (by norm_num) (by norm_num) (by decide)
  have hop : opIncomeOf inputB = 20 := by decide
  have heq : equityOf inputB = 60 := by decide
  rw [hop, heq] at h
  have harg : (20 : ℚ) * CONST_NOPAT_RATE / 60 * 100 = 20 := by
    norm_num [CONST_NOPAT_RATE]
  rw [harg] at h
  have htier : roeTier 20 = ("20%以上", 4) := by
    unfold roeTier
    rw [if_pos (by norm_num)]
  rw [htier] at h
  exact h

/-- A set ROE band cell pins down both band cells. -/
theorem cascade_RS_some (res : AnalysisResult) (capO sharesO : Option ℚ)
    (e op : ℚ) (l : String) (cp : Option JNum)
    (hR : res.R_roe_class = none)
    (h : (cascade res capO sharesO e op l cp).R_roe_class ≠ none) :
    (cascade res capO sharesO e op l cp).R_roe_class
      = some (roeTier (op * CONST_NOPAT_RATE / e * 100)).1 ∧
    (cascade res capO sharesO e op l cp).S_7y_mult
      = some (roeTier (op * CONST_NOPAT_RATE / e * 100)).2 := by
  unfold cascade at h ⊢
  cases capO with
  | none => exact absurd hR h
  | some c =>
    cases sharesO with
    | none =>
      dsimp only at h ⊢
      split_ifs at h ⊢ <;> exact absurd hR h
    | some s =>
      dsimp only at h ⊢
      split_ifs at h ⊢ <;> first | exact absurd hR h | exact ⟨rfl, rfl⟩

/-- The ROE band cells of the full analysis, whenever they are set. -/
theorem analyzeBody_RS_some (i : StockInput) (cache : PriceCache)
    (h : (analyzeBody i cache).R_roe_class ≠ none) :
    (analyzeBody i cache).R_roe_class
      = some (roeTier (opIncomeOf i * CONST_NOPAT_RATE / equityOf i * 100)).1 ∧
    (analyzeBody i cache).S_7y_mult
      = some (roeTier (opIncomeOf i * CONST_NOPAT_RATE / equityOf i * 100)).2 := by
  by_cases hne : (i.fins.isEmpty || i.bs.isEmpty) = true
  · rw [analyzeBody_empty i cache hne] at h
    exact absurd rfl h
  · have hne' : (i.fins.isEmpty || i.bs.isEmpty) = false := by
      cases hb : (i.fins.isEmpty || i.bs.isEmpty) <;> simp_all
    rw [analyzeBody_eq i cache hne'] at h ⊢
    split_ifs at h ⊢ with hg
    · exact cascade_RS_some (gatesRecord i cache) _ _ _ _ _ _ rfl h
    · exact absurd rfl h

/-- A worker row always has 27 cells. -/
theorem runTicker_length (i : StockInput) (cache : PriceCache)
    (ff invf : Bool) : (runTicker i cache ff invf).length = 27 := by
  unfold runTicker analyzeStock
  split_ifs <;> rfl

theorem inputA_CEG :
    (analyzeBody inputA ([] : PriceCache)).C_judge1 = "合格" ∧
    (analyzeBody inputA ([] : PriceCache)).E_judge2 = "合格" ∧
    (analyzeBody inputA ([] : PriceCache)).G_judge3 = "合格" := by
  obtain ⟨_, hc, _, he, _, hg, _⟩ := analyzeBody_gateFields inputA [] inputA_hne
  refine ⟨?_, ?_, ?_⟩
  · rw [hc, inputA_g1]; rfl
  · rw [he, inputA_g2]; rfl
  · rw [hg, inputA_g3]; rfl

theorem inputA_HIJ :
    (analyzeBody inputA ([] : PriceCache)).H_cap = some 100 ∧
    (analyzeBody inputA ([] : PriceCache)).I_shares = some 10 ∧
    (analyzeBody inputA ([] : PriceCache)).J_equity = some 50 := by
  have h := analyzeBody_HIJ inputA [] inputA_hne inputA_g1 inputA_g2 inputA_g3
    100 10 rfl rfl (by norm_num) (by norm_num) (by decide)
  have heq : equityOf inputA = 50 := by decide
  rw [heq] at h
  exact h

theorem inputA_Z :
    (analyzeBody inputA ([] : PriceCache)).Z_final = "不合格" := by
  rcases analyzeBody_Z_cases inputA [] with h | h
  · exact h
  · exfalso
    obtain ⟨_, _, _, c, s, _, _, _, _, _, ht, _⟩ :=
      (analyzeBody_Z inputA [] inputA_hne).mp h
    have hrp : resolvedPrice inputA ([] : PriceCache) = none := rfl
    rw [hrp] at ht
    exact absurd ht (by decide)

/-! The frozen claims. -/

/-- C1 (counterexample): an analysis that passes all three gates, records
market cap, shares and (positive) equity, and computes an upside multiple of
13.71 ≥ 2, nevertheless gets final verdict `不合格`, because no current
price was resolvable.  This refutes "final verdict = pass iff
UpsideMultiple ≥ 2.0" as stated. -/
theorem c1_counterexample :
    (analyzeBody inputA ([] : PriceCache)).C_judge1 = "合格" ∧
    (analyzeBody inputA ([] : PriceCache)).E_judge2 = "合格" ∧
    (analyzeBody inputA ([] : PriceCache)).G_judge3 = "合格" ∧
    (analyzeBody inputA ([] : PriceCache)).H_cap = some 100 ∧
    (analyzeBody inputA ([] : PriceCache)).I_shares = some 10 ∧
    (analyzeBody inputA ([] : PriceCache)).J_equity = some 50 ∧
    (analyzeBody inputA ([] : PriceCache)).W_upside = some (1371/100) ∧
    ((2:ℚ) ≤ 1371/100) ∧
    (analyzeBody inputA ([] : PriceCache)).Z_final = "不合格" :=
  ⟨inputA_CEG.1, inputA_CEG.2.1, inputA_CEG.2.2, inputA_HIJ.1, inputA_HIJ.2.1,
    inputA_HIJ.2.2, inputA_W [], by norm_num, inputA_Z⟩

/-- C1 (amended): whenever the cascade has recorded an upside multiple, the
final verdict is `合格` iff the unrounded upside multiple is ≥ 2 AND a
truthy current price was resolved; with no resolvable price the verdict
stays `不合格` even when the upside multiple is ≥ 2. -/
theorem c1_upside_verdict_amended (i : StockInput) (cache : PriceCache) (w : ℚ)
    (h : (analyzeBody i cache).W_upside = some w) :
    ((analyzeBody i cache).Z_final = "合格" ↔
      optTruthy ((analyzeBody i cache).X_price) = true ∧
      ∃ c, i.infoMarketCap = some c ∧
        2 ≤ rawUpside (opIncomeOf i) (equityOf i) c) := by
  obtain ⟨hne, hg1, hg2, hg3, c, s, hc, hs, hs0, he, hc0, hw⟩ :=
    analyzeBody_W_some i cache w h
  have hx := (analyzeBody_gateFields i cache hne).2.2.2.2.2.2
  rw [analyzeBody_Z i cache hne, hx]
  constructor
  · rintro ⟨_, _, _, c', s', hc', hs', _, _, _, ht, hu⟩
    exact ⟨ht, c', hc', hu⟩
  · rintro ⟨ht, c', hc', hu⟩
    have hcc : c' = c := by
      rw [hc] at hc'
      exact ((Option.some.injEq _ _).mp hc').symm
    subst hcc
    exact ⟨hg1, hg2, hg3, c', s, hc', hs, hs0, he, hc0, ht, hu⟩

/-- C1 (amended, witness): the amended equivalence instantiated at a
concrete fully-cascaded input. -/
theorem c1_upside_verdict_amended_witness :
    ((analyzeBody inputA ([] : PriceCache)).Z_final = "合格" ↔
      optTruthy ((analyzeBody inputA ([] : PriceCache)).X_price) = true ∧
      ∃ c, inputA.infoMarketCap = some c ∧
        2 ≤ rawUpside (opIncomeOf inputA) (equityOf inputA) c) :=
  c1_upside_verdict_amended inputA [] (1371/100) (inputA_W [])

/-- C2 (amended): the serialized row always has exactly the 27-cell schema
and never contains a Python `None` (those are sanitized to the empty
string), but NaN is not sanitized (see the counterexample). -/
theorem c2_row_schema_amended (r : AnalysisResult) :
    (formatResult r).length = 27 ∧
    ((formatResult r).all fun c => !(c.isNull)) = true ∧
    sanitize Cell.pyNone = Cell.str "" :=
  ⟨formatResult_length r, formatResult_no_null r, rfl⟩

/-- C2 (counterexample): with a NaN cached price (as the bulk download
stores for a NaN close), the serialized row carries the NaN into the
current-price cell (index 22, column X), refuting "no field is ever NaN". -/
theorem c2_counterexample :
    (formatResult (analyzeBody inputN cacheN))[22]? = some (Cell.num JNum.nan) := by
  rfl

/-- C3 (counterexample): `main` performs a single bulk write of all rows
rather than 3 batched writes of 50/50/20: with 120 rows there is exactly
one write, spanning sheet rows 2..121. -/
theorem c3_counterexample :
    sinkWrites (List.replicate 120 blankRow)
      = [⟨2, 121, List.replicate 120 blankRow⟩] ∧
    (sinkWrites (List.replicate 120 blankRow)).length = 1 ∧
    ¬ (sinkWrites (List.replicate 120 blankRow)).length = 3 := by
  refine ⟨rfl, rfl, by decide⟩

/-- C3 (amended): the scheduler does not partition into batches; it writes
all result rows in one update starting at sheet position 2 (one header row
preceding), so for n tickers there is exactly 1 write spanning rows
2..n+1. -/
theorem c3_single_write_amended (rows : List (List Cell)) (h : rows ≠ []) :
    sinkWrites rows = [⟨2, rows.length + 1, rows⟩] ∧
    (sinkWrites rows).length = 1 := by
  unfold sinkWrites
  rw [if_neg (by simpa using h)]
  refine ⟨?_, rfl⟩
  have h2 : 2 + rows.length - 1 = rows.length + 1 := by
    have := List.length_pos.mpr h
    omega
  rw [h2]

/-- C3 (amended, witness). -/
theorem c3_single_write_amended_witness :
    sinkWrites [blankRow] = [⟨2, 2, [blankRow]⟩] ∧
    (sinkWrites [blankRow]).length = 1 :=
  c3_single_write_amended [blankRow] (by simp)

/-- C4: Gate 1 passes iff revenue > 0, operating income > 0,
cost = revenue - opIncome > 0 and revenue / cost ≥ 1.15. -/
theorem c4_gate1_iff (i : StockInput) (cache : PriceCache)
    (hne : (i.fins.isEmpty || i.bs.isEmpty) = false) :
    ((analyzeBody i cache).C_judge1 = "合格" ↔
      0 < revenueOf i ∧ 0 < opIncomeOf i ∧ 0 < revenueOf i - opIncomeOf i ∧
      115/100 ≤ revenueOf i / (revenueOf i - opIncomeOf i)) := by
  rw [(analyzeBody_gateFields i cache hne).2.1, judgeStr_eq_ok_iff, gate1_pass_iff]

/-- C4 (witness): revenue 130, operating income 30 gives cost 100, ratio
1.30 ≥ 1.15, and gate 1 passes. -/
theorem c4_gate1_iff_witness :
    (inputA.fins.isEmpty || inputA.bs.isEmpty) = false ∧
    (analyzeBody inputA ([] : PriceCache)).C_judge1 = "合格" := by
  refine ⟨inputA_hne, (c4_gate1_iff inputA [] inputA_hne).mpr ?_⟩
  have h1 : revenueOf inputA = 130 := by decide
  have h2 : opIncomeOf inputA = 30 := by decide
  rw [h1, h2]
  norm_num

/-- C5 (counterexample): an input with four fiscal periods of revenue data
(one of them negative, so gate 3's all-positive requirement fails) records
no CAGR at all, refuting "CAGR is recorded regardless of whether gate 3
passes or fails". -/
theorem c5_counterexample :
    4 ≤ inputC.fins.cols.length ∧
    (analyzeBody inputC ([] : PriceCache)).F_cagr = none := by
  exact ⟨by decide, rfl⟩

/-- C5 (amended): the CAGR cell is recorded iff there are at least 4
periods AND all four revenues are strictly positive — independent of the
strictly-decreasing check — and then its value is
`round(((r0/r3)^(1/3) - 1) * 100, 2)`. -/
theorem c5_cagr_amended (i : StockInput) (cache : PriceCache)
    (hne : (i.fins.isEmpty || i.bs.isEmpty) = false) :
    ((analyzeBody i cache).F_cagr ≠ none ↔
      4 ≤ i.fins.cols.length ∧
      0 < revAt i 0 ∧ 0 < revAt i 1 ∧ 0 < revAt i 2 ∧ 0 < revAt i 3) ∧
    (4 ≤ i.fins.cols.length → 0 < revAt i 0 → 0 < revAt i 1 → 0 < revAt i 2 →
      0 < revAt i 3 →
      (analyzeBody i cache).F_cagr
        = some (pyRound (cagrReal (revAt i 0) (revAt i 3) * 100) 2)) := by
  have hF := (analyzeBody_gateFields i cache hne).2.2.2.2.1
  refine ⟨?_, ?_⟩
  · rw [hF]; exact gate3_fst_ne_none_iff i
  · intro h4 h0 h1 h2 h3
    rw [hF]
    exact gate3_fst_val i h4 h0 h1 h2 h3

/-- C5 (amended, witness): four positive decreasing revenues record the
CAGR value. -/
theorem c5_cagr_amended_witness :
    (analyzeBody inputA ([] : PriceCache)).F_cagr
      = some (pyRound (cagrReal (revAt inputA 0) (revAt inputA 3) * 100) 2) :=
  (c5_cagr_amended inputA [] (by decide)).2 (by decide) (by decide) (by decide)
    (by decide) (by decide)

/-- C6: the payout used by gate 2 is the scraped value when present, else
the provider fraction times 100; gate 2 passes iff 20 ≤ payout ≤ 60, and an
unresolved payout simply fails the gate (the embedding is total — nothing
is raised). -/
theorem c6_gate2_payout (i : StockInput) (cache : PriceCache)
    (hne : (i.fins.isEmpty || i.bs.isEmpty) = false) :
    ((analyzeBody i cache).E_judge2 = "合格" ↔
      ∃ p, payoutOf i = some p ∧ 20 ≤ p ∧ p ≤ 60) ∧
    (∀ p, i.yjPayout = some p → payoutOf i = some p) ∧
    (i.yjPayout = none → payoutOf i = i.infoPayoutFrac.map (fun v => v * 100)) := by
  refine ⟨?_, ?_, ?_⟩
  · rw [(analyzeBody_gateFields i cache hne).2.2.2.1, judgeStr_eq_ok_iff,
      gate2_pass_iff]
  · intro p hp; unfold payoutOf; rw [hp]
  · intro hp; unfold payoutOf; rw [hp]; cases i.infoPayoutFrac <;> rfl

/-- C6 (witness): a scraped payout of 30 passes gate 2. -/
theorem c6_gate2_payout_witness :
    (analyzeBody inputA ([] : PriceCache)).E_judge2 = "合格" ∧
    payoutOf inputA = some 30 :=
  ⟨(c6_gate2_payout inputA [] inputA_hne).1.mpr ⟨30, by decide, by norm_num,
      by norm_num⟩, by decide⟩

/-- C7: the recorded upside multiple is monotone in operating income — for
two analyses agreeing on equity and market cap, larger operating income
never yields a smaller recorded upside multiple, across tier boundaries. -/
theorem c7_upside_monotone (i1 i2 : StockInput) (c1 c2 : PriceCache) (w1 w2 : ℚ)
    (heq : equityOf i1 = equityOf i2) (hcap : i1.infoMarketCap = i2.infoMarketCap)
    (hop : opIncomeOf i1 ≤ opIncomeOf i2)
    (h1 : (analyzeBody i1 c1).W_upside = some w1)
    (h2 : (analyzeBody i2 c2).W_upside = some w2) :
    w1 ≤ w2 := by
  obtain ⟨hne1, hg11, _, _, ca, sa, hca, _, _, he1, hca0, hw1⟩ :=
    analyzeBody_W_some i1 c1 w1 h1
  obtain ⟨hne2, _, _, _, cb, sb, hcb, _, _, he2, hcb0, hw2⟩ :=
    analyzeBody_W_some i2 c2 w2 h2
  have hcc : ca = cb := by
    rw [hcap] at hca
    rw [hca] at hcb
    exact (Option.some.injEq _ _).mp hcb
  have hop0 : 0 < opIncomeOf i1 := ((gate1_pass_iff _ _).mp hg11).2.1
  rw [hw1, hw2, heq, hcc]
  exact pyRound_mono 2 (rawUpside_mono (le_of_lt hop0) hop he2 hcb0)

/-- C7 (witness): raising operating income from 30 to 40 (crossing nothing
below the 20% tier) moves the recorded upside from 13.71 to 18.29. -/
theorem c7_upside_monotone_witness : (1371/100 : ℚ) ≤ 1829/100 :=
  c7_upside_monotone inputA inputA2 [] [] (1371/100) (1829/100) (by decide) rfl
    (by decide) (inputA_W []) (inputA2_W [])

/-- C8: whenever the ROE band is recorded it is `roeTier` of the pseudo-ROE
percentage, and the band thresholds are inclusive at their lower bounds:
≥ 20 ↦ (20%以上, 4.0); [15, 20) ↦ (15-20%, 3.0); [10, 15) ↦ (10-15%, 2.0);
below 10 ↦ (10%未満, 1.5). -/
theorem c8_roe_tier_bounds (i : StockInput) (cache : PriceCache) (r : ℚ) :
    ((analyzeBody i cache).R_roe_class ≠ none →
      (analyzeBody i cache).R_roe_class
        = some (roeTier (opIncomeOf i * CONST_NOPAT_RATE / equityOf i * 100)).1 ∧
      (analyzeBody i cache).S_7y_mult
        = some (roeTier (opIncomeOf i * CONST_NOPAT_RATE / equityOf i * 100)).2) ∧
    (20 ≤ r → roeTier r = ("20%以上", 4)) ∧
    (15 ≤ r → r < 20 → roeTier r = ("15-20%", 3)) ∧
    (10 ≤ r → r < 15 → roeTier r = ("10-15%", 2)) ∧
    (r < 10 → roeTier r = ("10%未満", 3/2)) := by
  refine ⟨fun h => analyzeBody_RS_some i cache h, ?_, ?_, ?_, ?_⟩
  · intro h20; unfold roeTier; rw [if_pos h20]
  · intro h15 h20; unfold roeTier; rw [if_neg (by linarith), if_pos h15]
  · intro h10 h15; unfold roeTier
    rw [if_neg (by linarith), if_neg (by linarith), if_pos h10]
  · intro h10; unfold roeTier
    rw [if_neg (by linarith), if_neg (by linarith), if_neg (by linarith)]

/-- C8 (witness): pseudo-ROE of exactly 20% (operating income 20, equity 60)
records band 20%以上 with multiplier 4.0. -/
theorem c8_roe_tier_bounds_witness :
    roeTier 20 = ("20%以上", 4) ∧
    (analyzeBody inputB ([] : PriceCache)).R_roe_class = some "20%以上" ∧
    (analyzeBody inputB ([] : PriceCache)).S_7y_mult = some 4 :=
  ⟨(c8_roe_tier_bounds inputB [] 20).2.1 (by norm_num), inputB_RS.1, inputB_RS.2⟩

/-- C9: every ticker yields exactly one 27-cell row: a raising invocation is
replaced by the all-blank row, an analysis-time fault is caught at the
ticker boundary and serialized as the partially-filled default record, and
the output row count always equals the ticker count. -/
theorem c9_fault_isolation (tickers : List String) (inputOf : String → StockInput)
    (cache : PriceCache) (fetchFault invocationFault : String → Bool) :
    (scheduleRows tickers inputOf cache fetchFault invocationFault).length
      = tickers.length ∧
    (∀ row ∈ scheduleRows tickers inputOf cache fetchFault invocationFault,
      row.length = 27) ∧
    (∀ t, invocationFault t = true →
      runTicker (inputOf t) cache (fetchFault t) (invocationFault t) = blankRow) ∧
    (∀ t, invocationFault t = false → fetchFault t = true →
      runTicker (inputOf t) cache (fetchFault t) (invocationFault t)
        = formatResult (baseRecord (inputOf t))) := by
  refine ⟨?_, ?_, ?_, ?_⟩
  · simp [scheduleRows, outputRows]
  · intro row hrow
    simp only [scheduleRows, outputRows, List.mem_map, Option.getD_some] at hrow
    obtain ⟨t, _, hrt⟩ := hrow
    rw [← hrt]
    exact runTicker_length _ _ _ _
  · intro t h
    unfold runTicker
    rw [if_pos h]
  · intro t h1 h2
    unfold runTicker analyzeStock
    rw [if_neg (by simp [h1]), if_pos h2]

/-- C9 (witness). -/
theorem c9_fault_isolation_witness :
    (scheduleRows ["7203.T"] (fun _ => inputA) [] (fun _ => false)
      (fun _ => true)).length = 1 ∧
    runTicker inputA [] false true = blankRow := by
  obtain ⟨h1, _, h3, _⟩ := c9_fault_isolation ["7203.T"] (fun _ => inputA) []
    (fun _ => false) (fun _ => true)
  exact ⟨h1, h3 "7203.T" rfl⟩

/-- C10: a cached price entry equal to 0 is never used — price resolution
falls back to the live-quote chain, and the whole analysis behaves exactly
as with an empty cache. -/
theorem c10_zero_cache_fallback (i : StockInput) (cache : PriceCache)
    (h : cacheGet cache i.ticker = some (JNum.val 0)) :
    resolvedPrice i cache = pyOr i.infoCurrentPrice i.infoPrevClose ∧
    analyzeBody i cache = analyzeBody i ([] : PriceCache) := by
  have hrp : resolvedPrice i cache = pyOr i.infoCurrentPrice i.infoPrevClose := by
    unfold resolvedPrice
    dsimp only
    rw [h]
    rfl
  have hrp2 : resolvedPrice i cache = resolvedPrice i ([] : PriceCache) := by
    rw [hrp]
    rfl
  refine ⟨hrp, ?_⟩
  unfold analyzeBody
  rw [hrp2]

/-- C10 (witness): a concrete cache with a 0.0 entry for the ticker. -/
theorem c10_zero_cache_fallback_witness :
    resolvedPrice inputA [("7203.T", some (JNum.val 0))]
      = pyOr inputA.infoCurrentPrice inputA.infoPrevClose ∧
    analyzeBody inputA [("7203.T", some (JNum.val 0))]
      = analyzeBody inputA ([] : PriceCache) :=
  c10_zero_cache_fallback inputA [("7203.T", some (JNum.val 0))] (by decide)

end MultiDDM

